import Mathlib

/-!
# Verification of the LAMBDA serverless-function execution core

Shallow embedding of `src/backend/main.py` (the FastAPI layer) together with
the sandboxed execution engine it imports from `run_function_docker`
(`run_function`, `ensure_docker_images`, `prewarm_containers`), which is not
part of the visible sources and is therefore modelled from the specification.

Conventions:
* Python dictionaries with string keys become association lists.
* The global list `functions` becomes an explicit `List StoredFunction`
  argument threaded through the endpoint functions.
* `raise HTTPException(...)` becomes `Except.error` over `HTTPException`.
* The SQLite metrics table (`conn`) becomes an append-only `List MetricsRow`.
-/

namespace Faas

/-- One metrics row, mirroring the columns of the `metrics` table read by
`get_function_metrics` and `get_all_metrics` in `main.py`
(`response_time, error, stdout, stderr, memory_usage, cpu_usage`, keyed by
`function_name` and `runtime`). -/
structure MetricsRow where
  function_name : String
  runtime : String
  response_time : Nat
  error : Bool
  stdout : String
  stderr : String
  memory_usage : Nat
  cpu_usage : Nat
deriving Repr, DecidableEq, Inhabited

/-- A stored function record: the pydantic `Function` model of `main.py`
plus the `id` field that `create_function` adds.  The `settings` dict
(which holds the code under key `"code"`) is an association list. -/
structure StoredFunction where
  name : String
  route : String
  language : String
  timeout : Nat
  runtime : String
  settings : List (String × String)
  id : Nat
deriving Repr, DecidableEq, Inhabited

/-- `d.get(k)` on a Python string-keyed dict. -/
def settingsGet (s : List (String × String)) (k : String) : Option String :=
  (s.find? (fun p => p.1 == k)).map (fun p => p.2)

/-- `raise HTTPException(status_code, detail)`. -/
structure HTTPException where
  status : Nat
  detail : String
deriving Repr, DecidableEq

/-- `r` is a 404 response. -/
def is404 {α : Type} (r : Except HTTPException α) : Prop :=
  ∃ d, r = Except.error ⟨404, d⟩

/-- The id-validity guard shared by every per-function endpoint in `main.py`:
`if func_id > len(functions) or func_id <= 0`. -/
def badId (fns : List StoredFunction) (func_id : Int) : Prop :=
  (fns.length : Int) < func_id ∨ func_id ≤ 0

instance (fns : List StoredFunction) (func_id : Int) : Decidable (badId fns func_id) := by
  unfold badId; infer_instance

/-- The registry entry an endpoint reads for `func_id` (Python
`functions[func_id - 1]`). -/
def funcAt (fns : List StoredFunction) (func_id : Int) : StoredFunction :=
  fns.getD ((func_id - 1).toNat) default

/-! ## The execution engine (pool manager + orchestrator), modelled from the spec

`run_function_docker` is imported by `main.py` but absent from the visible
sources, so the engine is modelled from the specification (sections 4.2, 4.3,
4.4, 6 and 7 of `spec.md`). -/

/-- A container slot: one container instance, identified by a backend-assigned
id, tagged with its (language, sandbox-backend) pool key, and carrying a
use counter for the reuse budget.  Modelled from the spec: `ContainerSlot`. -/
structure ContainerSlot where
  slotId : Nat
  language : String
  backend : String
  uses : Nat
deriving Repr, DecidableEq, Inhabited

/-- Pool manager state: the idle containers, the busy containers together
with the caller that checked each one out, and a counter supplying fresh
container identities.  Modelled from the spec: the per-key idle queues of the
Pool Manager (section 4.2). -/
structure PoolState where
  idle : List ContainerSlot
  busy : List (ContainerSlot × Nat)
  nextId : Nat
deriving Repr, DecidableEq, Inhabited

/-- Pool configuration. Modelled from the spec: `PoolConfig` (reuse budget:
max executions before forced retirement). -/
structure PoolConfig where
  reuseBudget : Nat
deriving Repr, DecidableEq, Inhabited

/-- The idle queue restricted to one (language, backend) pool key. -/
def idleFor (st : PoolState) (lang backend : String) : List ContainerSlot :=
  st.idle.filter (fun s => s.language == lang && s.backend == backend)

/-- Modelled from the spec: `checkout(key)` of the Pool Manager — pops one
idle slot for the key, or lazily starts a fresh container when the key's
queue is empty.  The checked-out slot is recorded as busy, owned by
`caller`. -/
def checkout (st : PoolState) (lang backend : String) (caller : Nat) :
    ContainerSlot × PoolState :=
  match idleFor st lang backend with
  | [] =>
    let s : ContainerSlot := ⟨st.nextId, lang, backend, 0⟩
    (s, ⟨st.idle, (s, caller) :: st.busy, st.nextId + 1⟩)
  | s :: _ => (s, ⟨st.idle.erase s, (s, caller) :: st.busy, st.nextId⟩)

/-- Modelled from the spec: `checkin(slot, healthy)` of the Pool Manager —
the slot stops being busy; if healthy and under its reuse budget it returns
to the idle queue, otherwise it is destroyed. -/
def checkin (cfg : PoolConfig) (st : PoolState) (s : ContainerSlot)
    (caller : Nat) (healthy : Bool) : PoolState :=
  let busy := @List.erase (ContainerSlot × Nat) instBEqOfDecidableEq st.busy (s, caller)
  if healthy = true ∧ s.uses < cfg.reuseBudget then
    ⟨{ s with uses := s.uses + 1 } :: st.idle, busy, st.nextId⟩
  else
    ⟨st.idle, busy, st.nextId⟩

/-- The self-contained request the engine receives.  Modelled from the spec:
`ExecutionRequest` — code text, language tag, timeout (seconds), sandbox
backend tag, function name (metrics labeling only). -/
structure ExecutionRequest where
  code : String
  language : String
  timeout : Nat
  backend : String
  name : String
deriving Repr, DecidableEq, Inhabited

/-- What the submitted code does when actually run in a container: how long
it would run unimpeded (ms), its exit code, its streams and output value, and
its sampled resource usage.  This is the engine's external world (the
container runtime executing user code), a parameter of the model. -/
structure RunBehaviour where
  durationMs : Nat
  exitCode : Nat
  stdout : String
  stderr : String
  output : String
  memoryMb : Nat
  cpuPercent : Nat
deriving Repr, DecidableEq, Inhabited

/-- The environment assigning to every request the behaviour of its code in
a container of that request's (language, backend) image. -/
structure ExecEnv where
  behaviour : ExecutionRequest → RunBehaviour

/-- Failure kinds of one execution.  Modelled from the spec error taxonomy
(section 7): `TimeoutError` and `RuntimeExecutionError`. -/
inductive ExecError where
  | timeout
  | runtimeExecution
deriving Repr, DecidableEq

/-- The metrics record of one execution.  Modelled from the spec:
`metrics{responseTimeMs, memoryUsageMb, cpuUsagePercent, errorFlag}`
(section 6). -/
structure ExecMetrics where
  responseTimeMs : Nat
  memoryUsageMb : Nat
  cpuUsagePercent : Nat
  errorFlag : Bool
deriving Repr, DecidableEq, Inhabited

/-- The result of one execution.  Modelled from the spec:
`execute(...) -> (output, stdout, stderr, metrics{...}, error)` (section 6). -/
structure ExecOutcome where
  output : String
  stdout : String
  stderr : String
  metrics : ExecMetrics
  error : Option ExecError
deriving Repr, DecidableEq, Inhabited

/-- Modelled from the spec (section 4.3, steps 2–5): the observable outcome
of running one request in a container.  If the code's run time exceeds the
timeout, the process is forcibly terminated at the deadline and the result is
a timeout error; otherwise a non-zero exit is a runtime-execution error and a
zero exit is success.  A metrics record is produced in every case
(section 4.4: metrics are always returned, error flag populated on
failure). -/
def outcomeOf (env : ExecEnv) (req : ExecutionRequest) : ExecOutcome :=
  let b := env.behaviour req
  if req.timeout * 1000 < b.durationMs then
    ⟨"", b.stdout, b.stderr, ⟨req.timeout * 1000, b.memoryMb, b.cpuPercent, true⟩,
      some ExecError.timeout⟩
  else if b.exitCode ≠ 0 then
    ⟨"", b.stdout, b.stderr, ⟨b.durationMs, b.memoryMb, b.cpuPercent, true⟩,
      some ExecError.runtimeExecution⟩
  else
    ⟨b.output, b.stdout, b.stderr, ⟨b.durationMs, b.memoryMb, b.cpuPercent, false⟩,
      none⟩

/-- The metrics-log row the engine appends for one execution (the engine's
contract with the append-only metrics store: one well-formed record per
execution, keyed by function name and backend). -/
def rowOf (name backend : String) (o : ExecOutcome) : MetricsRow :=
  ⟨name, backend, o.metrics.responseTimeMs, o.metrics.errorFlag, o.stdout,
    o.stderr, o.metrics.memoryUsageMb, o.metrics.cpuUsagePercent⟩

/-- Everything one engine invocation returns and changes. -/
structure RunOut where
  outcome : ExecOutcome
  slot : ContainerSlot
  st : PoolState
  log : List MetricsRow
deriving Repr

/-- Modelled from the spec: `run_function` / `execute(request)` of the
Execution Orchestrator (section 4.3) — checks out a slot for
(language, backend), runs the code with the timeout enforced, always checks
the slot back in exactly once: healthy after success or a runtime-execution
error (the code failed, not the sandbox), destroyed after a timeout (the
container is never reused after a forced kill).  Per-execution failures are
returned as structured results, never raised (section 7), and one metrics
row is appended to the log for every execution (section 4.4). -/
def run_function (cfg : PoolConfig) (env : ExecEnv) (req : ExecutionRequest)
    (st : PoolState) (log : List MetricsRow) : RunOut :=
  let co := checkout st req.language req.backend 0
  let o := outcomeOf env req
  { outcome := o
    slot := co.1
    st := checkin cfg co.2 co.1 0 (o.error != some ExecError.timeout)
    log := log ++ [rowOf req.name req.backend o] }

/-! ## Pool transitions and the ownership invariant

Modelled from the spec (sections 3, 4.2 and 5): the pool's shared mutable
state changes by interleaved checkout / checkin / prewarm transitions of
concurrent callers. -/

/-- All container identities present in the pool, idle first then busy. -/
def stIds (st : PoolState) : List Nat :=
  st.idle.map (fun s => s.slotId) ++ st.busy.map (fun p => p.1.slotId)

/-- Pool well-formedness: every container identity occurs at most once
across the idle queue and the busy set, and identities are below the
fresh-id counter. -/
def PoolWF (st : PoolState) : Prop :=
  (stIds st).Nodup ∧ ∀ n ∈ stIds st, n < st.nextId

/-- One transition of the pool's shared state, by any caller.  Modelled from
the spec: container lifecycle `Provisioning → Idle → Busy → \x7bIdle,
Destroying\x7d` driven by `prewarm`, `checkout` and `checkin`
(sections 3 and 4.2). -/
inductive PoolStep (cfg : PoolConfig) : PoolState → PoolState → Prop
  | prewarmOne (lang backend : String) (st : PoolState) :
      PoolStep cfg st
        ⟨(⟨st.nextId, lang, backend, 0⟩ : ContainerSlot) :: st.idle, st.busy,
          st.nextId + 1⟩
  | doCheckout (lang backend : String) (caller : Nat) (st : PoolState) :
      PoolStep cfg st (checkout st lang backend caller).2
  | doCheckin (s : ContainerSlot) (caller : Nat) (healthy : Bool)
      (st : PoolState) (h : (s, caller) ∈ st.busy) :
      PoolStep cfg st (checkin cfg st s caller healthy)

/-- The empty pool the engine starts from. -/
def initPool : PoolState := ⟨[], [], 0⟩

/-- Pool states reachable from the empty pool by interleaved transitions. -/
def Reachable (cfg : PoolConfig) (st : PoolState) : Prop :=
  Relation.ReflTransGen (PoolStep cfg) initPool st

theorem stIds_cons_busy (idle : List ContainerSlot) (busy : List (ContainerSlot × Nat))
    (n : Nat) (s : ContainerSlot) (c : Nat) :
    List.Perm (stIds ⟨idle, (s, c) :: busy, n⟩) (s.slotId :: stIds ⟨idle, busy, n⟩) :=
  List.perm_middle

theorem poolWF_init : PoolWF initPool := by
  constructor
  · simp [stIds, initPool]
  · intro n hn
    simp [stIds, initPool] at hn

theorem poolWF_prewarmOne (st : PoolState) (lang backend : String)
    (h : PoolWF st) :
    PoolWF ⟨(⟨st.nextId, lang, backend, 0⟩ : ContainerSlot) :: st.idle, st.busy,
      st.nextId + 1⟩ := by
  obtain ⟨hnd, hlt⟩ := h
  have hids : stIds ⟨(⟨st.nextId, lang, backend, 0⟩ : ContainerSlot) :: st.idle,
      st.busy, st.nextId + 1⟩ = st.nextId :: stIds st := rfl
  constructor
  · rw [hids]
    exact List.nodup_cons.mpr ⟨fun hm => lt_irrefl st.nextId (hlt _ hm), hnd⟩
  · intro n hn
    rw [hids] at hn
    show n < st.nextId + 1
    rcases List.mem_cons.mp hn with h1 | h1
    · omega
    · have := hlt n h1
      omega

theorem poolWF_checkout (st : PoolState) (lang backend : String) (caller : Nat)
    (h : PoolWF st) : PoolWF (checkout st lang backend caller).2 := by
  obtain ⟨hnd, hlt⟩ := h
  rcases hfi : idleFor st lang backend with _ | ⟨s0, rest⟩
  · simp only [checkout, hfi]
    have hperm : List.Perm (stIds ⟨st.idle, ((⟨st.nextId, lang, backend, 0⟩ :
        ContainerSlot), caller) :: st.busy, st.nextId + 1⟩) (st.nextId :: stIds st) :=
      stIds_cons_busy st.idle st.busy (st.nextId + 1) ⟨st.nextId, lang, backend, 0⟩ caller
    constructor
    · exact hperm.nodup_iff.mpr
        (List.nodup_cons.mpr ⟨fun hm => lt_irrefl st.nextId (hlt _ hm), hnd⟩)
    · intro n hn
      show n < st.nextId + 1
      rcases List.mem_cons.mp (hperm.mem_iff.mp hn) with h1 | h1
      · omega
      · have := hlt n h1
        omega
  · have hm : s0 ∈ st.idle := by
      have hmf : s0 ∈ idleFor st lang backend := by
        rw [hfi]; exact List.mem_cons_self s0 rest
      exact List.mem_of_mem_filter hmf
    simp only [checkout, hfi]
    have h1 : List.Perm st.idle (s0 :: st.idle.erase s0) := List.perm_cons_erase hm
    have h2 : List.Perm (st.idle.map (fun s => s.slotId))
        (s0.slotId :: (st.idle.erase s0).map (fun s => s.slotId)) := h1.map _
    have hperm1 : List.Perm (stIds st)
        (s0.slotId :: stIds ⟨st.idle.erase s0, st.busy, st.nextId⟩) := by
      simp only [stIds]
      exact h2.append_right (st.busy.map (fun p => p.1.slotId))
    have hperm : List.Perm (stIds ⟨st.idle.erase s0, (s0, caller) :: st.busy, st.nextId⟩)
        (stIds st) :=
      (stIds_cons_busy (st.idle.erase s0) st.busy st.nextId s0 caller).trans hperm1.symm
    exact ⟨hperm.nodup_iff.mpr hnd, fun n hn => hlt n (hperm.mem_iff.mp hn)⟩

theorem poolWF_checkin (cfg : PoolConfig) (st : PoolState) (s : ContainerSlot)
    (caller : Nat) (healthy : Bool) (hmem : (s, caller) ∈ st.busy)
    (h : PoolWF st) : PoolWF (checkin cfg st s caller healthy) := by
  obtain ⟨hnd, hlt⟩ := h
  have hb : List.Perm st.busy ((s, caller) ::
      @List.erase (ContainerSlot × Nat) instBEqOfDecidableEq st.busy (s, caller)) :=
    List.perm_cons_erase hmem
  have hperm1 : List.Perm (stIds st)
      (s.slotId :: stIds ⟨st.idle,
        @List.erase (ContainerSlot × Nat) instBEqOfDecidableEq st.busy (s, caller),
        st.nextId⟩) := by
    have hstep1 : List.Perm (stIds st)
        (st.idle.map (fun t => t.slotId) ++
          s.slotId :: (@List.erase (ContainerSlot × Nat) instBEqOfDecidableEq st.busy
            (s, caller)).map (fun p => p.1.slotId)) := by
      simp only [stIds]
      exact (hb.map (fun p => p.1.slotId)).append_left (st.idle.map (fun t => t.slotId))
    exact hstep1.trans List.perm_middle
  unfold checkin
  by_cases hc : healthy = true ∧ s.uses < cfg.reuseBudget
  · rw [if_pos hc]
    have heq : stIds ⟨{ s with uses := s.uses + 1 } :: st.idle,
        @List.erase (ContainerSlot × Nat) instBEqOfDecidableEq st.busy (s, caller),
        st.nextId⟩ =
        s.slotId :: stIds ⟨st.idle,
          @List.erase (ContainerSlot × Nat) instBEqOfDecidableEq st.busy (s, caller),
          st.nextId⟩ := rfl
    constructor
    · rw [heq]
      exact (hperm1.nodup_iff).mp hnd
    · intro n hn
      rw [heq] at hn
      exact hlt n (hperm1.mem_iff.mpr hn)
  · rw [if_neg hc]
    have hnd2 : (s.slotId :: stIds ⟨st.idle,
        @List.erase (ContainerSlot × Nat) instBEqOfDecidableEq st.busy (s, caller),
        st.nextId⟩).Nodup := hperm1.nodup_iff.mp hnd
    constructor
    · exact (List.nodup_cons.mp hnd2).2
    · intro n hn
      exact hlt n (hperm1.mem_iff.mpr (List.mem_cons_of_mem _ hn))

theorem poolWF_step (cfg : PoolConfig) (st st2 : PoolState)
    (hstep : PoolStep cfg st st2) (h : PoolWF st) : PoolWF st2 := by
  cases hstep with
  | prewarmOne lang backend st => exact poolWF_prewarmOne st lang backend h
  | doCheckout lang backend caller st => exact poolWF_checkout st lang backend caller h
  | doCheckin s caller healthy st hmem => exact poolWF_checkin cfg st s caller healthy hmem h

theorem poolWF_reachable (cfg : PoolConfig) (st : PoolState)
    (h : Reachable cfg st) : PoolWF st := by
  induction h with
  | refl => exact poolWF_init
  | tail _ hstep ih => exact poolWF_step cfg _ _ hstep ih

/-! ## The FastAPI endpoints of `src/backend/main.py` -/

/-- Result of an endpoint that may touch the registry, the engine pool and
the metrics log: its HTTP response, the registry afterwards, the pool state
and metrics log afterwards, and the list of engine invocations it made. -/
structure EndpointOut (α : Type) where
  resp : Except HTTPException α
  fns : List StoredFunction
  st : PoolState
  log : List MetricsRow
  calls : List ExecutionRequest
deriving Repr

/-- `GET /functions/\x7bfunc_id\x7d` (`get_function`, main.py lines 66–72). -/
def get_function (fns : List StoredFunction) (func_id : Int) :
    Except HTTPException StoredFunction :=
  if badId fns func_id then Except.error ⟨404, "Function not found"⟩
  else Except.ok (funcAt fns func_id)

/-- `PUT /functions/\x7bfunc_id\x7d` (`update_function`, main.py lines 74–83):
returns the response and the registry afterwards. -/
def update_function (fns : List StoredFunction) (func_id : Int)
    (function : StoredFunction) :
    Except HTTPException StoredFunction × List StoredFunction :=
  if badId fns func_id then (Except.error ⟨404, "Function not found"⟩, fns)
  else
    let updated := { function with id := func_id.toNat }
    (Except.ok updated, fns.set ((func_id - 1).toNat) updated)

/-- `DELETE /functions/\x7bfunc_id\x7d` (`delete_function`, main.py lines
85–92): returns the response and the registry afterwards. -/
def delete_function (fns : List StoredFunction) (func_id : Int) :
    Except HTTPException String × List StoredFunction :=
  if badId fns func_id then (Except.error ⟨404, "Function not found"⟩, fns)
  else (Except.ok "Function deleted", fns.eraseIdx ((func_id - 1).toNat))

/-- The metrics payload returned by `get_function_metrics`. -/
structure MetricsResp where
  response_time : Nat
  error : Bool
  stdout : String
  stderr : String
  memory_usage : Nat
  cpu_usage : Nat
deriving Repr, DecidableEq

/-- `GET /functions/\x7bfunc_id\x7d/metrics` (`get_function_metrics`, main.py
lines 124–153): after the id guard, reads the most recent metrics row for the
function's name (`ORDER BY rowid DESC LIMIT 1` over the append-only log) and
raises 404 `"No metrics found..."` when there is none. -/
def get_function_metrics (fns : List StoredFunction) (func_id : Int)
    (log : List MetricsRow) : Except HTTPException MetricsResp :=
  if badId fns func_id then Except.error ⟨404, "Function not found"⟩
  else
    match (log.filter (fun r => r.function_name == (funcAt fns func_id).name)).getLast? with
    | none => Except.error ⟨404, "No metrics found for function " ++ (funcAt fns func_id).name⟩
    | some row =>
      Except.ok ⟨row.response_time, row.error, row.stdout, row.stderr,
        row.memory_usage, row.cpu_usage⟩

/-- `POST /functions/\x7bfunc_id\x7d/run` (`run_function_endpoint`, main.py
lines 94–122): id guard (404), then the code guard — `settings.get("code")`
missing or falsy raises 400 — then one engine invocation whose output is
returned. -/
def run_function_endpoint (cfg : PoolConfig) (env : ExecEnv)
    (fns : List StoredFunction) (func_id : Int) (st : PoolState)
    (log : List MetricsRow) : EndpointOut String :=
  if badId fns func_id then
    ⟨Except.error ⟨404, "Function not found"⟩, fns, st, log, []⟩
  else
    match settingsGet (funcAt fns func_id).settings "code" with
    | none =>
      ⟨Except.error ⟨400, "No code provided in function settings"⟩, fns, st, log, []⟩
    | some c =>
      if c = "" then
        ⟨Except.error ⟨400, "No code provided in function settings"⟩, fns, st, log, []⟩
      else
        let req : ExecutionRequest := ⟨c, (funcAt fns func_id).language,
          (funcAt fns func_id).timeout, (funcAt fns func_id).runtime,
          (funcAt fns func_id).name⟩
        let r := run_function cfg env req st log
        ⟨Except.ok r.outcome.output, fns, r.st, r.log, [req]⟩

/-- The self-contained execution request `run_function_endpoint` builds from
the registry entry at `func_id` (code from settings, language, timeout,
runtime/backend, name), when the entry is valid and has code. -/
def requestOf (fns : List StoredFunction) (func_id : Int) :
    Option ExecutionRequest :=
  if badId fns func_id then none
  else
    match settingsGet (funcAt fns func_id).settings "code" with
    | none => none
    | some c =>
      if c = "" then none
      else some ⟨c, (funcAt fns func_id).language, (funcAt fns func_id).timeout,
        (funcAt fns func_id).runtime, (funcAt fns func_id).name⟩

/-- One backend's entry in the comparison payload (main.py lines 174–187):
`response_time`, `memory_usage`, `cpu_usage`, `output`. -/
structure BackendReport where
  response_time : Nat
  memory_usage : Nat
  cpu_usage : Nat
  output : String
deriving Repr, DecidableEq

/-- The comparison payload: one report per sandbox backend. -/
structure Comparison where
  runc : BackendReport
  runsc : BackendReport
deriving Repr, DecidableEq

/-- The report `compare_performance` builds from one engine outcome. -/
def reportOf (o : ExecOutcome) : BackendReport :=
  ⟨o.metrics.responseTimeMs, o.metrics.memoryUsageMb, o.metrics.cpuUsagePercent,
    o.output⟩

/-- `GET /functions/\x7bfunc_id\x7d/compare` (`compare_performance`, main.py
lines 155–189): id guard (404), code guard (400), then `run_function` once
with backend `"runc"` and once with backend `"runsc"` — same code, language
and timeout — and both results in the response. -/
def compare_performance (cfg : PoolConfig) (env : ExecEnv)
    (fns : List StoredFunction) (func_id : Int) (st : PoolState)
    (log : List MetricsRow) : EndpointOut Comparison :=
  if badId fns func_id then
    ⟨Except.error ⟨404, "Function not found"⟩, fns, st, log, []⟩
  else
    match settingsGet (funcAt fns func_id).settings "code" with
    | none =>
      ⟨Except.error ⟨400, "No code provided in function settings"⟩, fns, st, log, []⟩
    | some c =>
      if c = "" then
        ⟨Except.error ⟨400, "No code provided in function settings"⟩, fns, st, log, []⟩
      else
        let reqc : ExecutionRequest := ⟨c, (funcAt fns func_id).language,
          (funcAt fns func_id).timeout, "runc", (funcAt fns func_id).name⟩
        let reqs : ExecutionRequest := ⟨c, (funcAt fns func_id).language,
          (funcAt fns func_id).timeout, "runsc", (funcAt fns func_id).name⟩
        let r1 := run_function cfg env reqc st log
        let r2 := run_function cfg env reqs r1.st r1.log
        ⟨Except.ok ⟨reportOf r1.outcome, reportOf r2.outcome⟩, fns, r2.st, r2.log,
          [reqc, reqs]⟩

/-! ## Startup (`startup_event`, main.py lines 22–48) -/

/-- The four (language, backend) pairs provisioned at startup
(main.py lines 37–40). -/
def startupPairs : List (String × String) :=
  [("python", "runc"), ("python", "runsc"), ("node", "runc"), ("node", "runsc")]

/-- The environment `startup_event` runs against: whether the Docker daemon
answers, whether the database schema can be initialized, which
(language, backend) image builds fail, and how many containers fail while
pre-warming each pair. -/
structure StartupEnv where
  dockerOk : Bool
  dbOk : Bool
  buildFails : String → String → Bool
  prewarmFailCount : String → String → Nat

/-- Modelled from the spec: `ensure_docker_images` / `ensureImages()`
(section 4.1) — builds the runtime image of every absent (language, backend)
pair; a build failure is signalled by raising `RuntimeError` (the exception
`startup_event`'s `except RuntimeError` branch converts into
`"Docker image build failed: ..."`), carrying the failing pairs. -/
def ensure_docker_images (env : StartupEnv) : Except String Unit :=
  match startupPairs.filter (fun p => env.buildFails p.1 p.2) with
  | [] => Except.ok ()
  | (l, b) :: _ => Except.error ("build failed for " ++ l ++ "/" ++ b)

/-- Modelled from the spec: `prewarm_containers(language, backend)` /
`prewarm(key, n)` (section 4.2) — best-effort: brings the pair's idle queue
towards the target count, logging each container that fails instead of
raising; returns the number warmed and the log lines.  It never signals an
error to its caller. -/
def prewarm_containers (env : StartupEnv) (lang backend : String) (target : Nat) :
    Nat × List String :=
  let failed := min target (env.prewarmFailCount lang backend)
  (target - failed,
    (List.range failed).map (fun _ => "prewarm failure for " ++ lang ++ "/" ++ backend))

/-- `startup_event` (main.py lines 22–48): checks Docker, then inside one
`try` block initializes the database, ensures all images and pre-warms all
four pairs; `FileNotFoundError` and `RuntimeError` escaping that block — in
particular a build failure — abort the whole startup as `RuntimeError`. -/
def startup_event (env : StartupEnv) (prewarmTarget : Nat) : Except String Unit :=
  if env.dockerOk = false then
    Except.error "Docker is not running or accessible."
  else if env.dbOk = false then
    Except.error "Startup failed: database initialization error"
  else
    match ensure_docker_images env with
    | Except.error e => Except.error ("Docker image build failed: " ++ e)
    | Except.ok _ =>
      let _ := startupPairs.map (fun p => prewarm_containers env p.1 p.2 prewarmTarget)
      Except.ok ()

/-! ## Helper lemmas -/

theorem not_is404_ok {α : Type} (a : α) : ¬ is404 (Except.ok a : Except HTTPException α) := by
  rintro ⟨d, hd⟩
  exact Except.noConfusion hd

theorem not_is404_400 {α : Type} (d0 : String) :
    ¬ is404 (Except.error ⟨400, d0⟩ : Except HTTPException α) := by
  rintro ⟨d, hd⟩
  have h4 : (400 : Nat) = 404 := congrArg (fun e => e.status)
    (Except.error.inj hd)
  exact absurd h4 (by decide)

theorem is404_404 {α : Type} (d0 : String) :
    is404 (Except.error ⟨404, d0⟩ : Except HTTPException α) := ⟨d0, rfl⟩

theorem run_function_outcome (cfg : PoolConfig) (env : ExecEnv)
    (req : ExecutionRequest) (st : PoolState) (log : List MetricsRow) :
    (run_function cfg env req st log).outcome = outcomeOf env req := rfl

theorem run_function_log (cfg : PoolConfig) (env : ExecEnv)
    (req : ExecutionRequest) (st : PoolState) (log : List MetricsRow) :
    (run_function cfg env req st log).log =
      log ++ [rowOf req.name req.backend (outcomeOf env req)] := rfl

theorem compare_performance_eq (cfg : PoolConfig) (env : ExecEnv)
    (fns : List StoredFunction) (func_id : Int) (st : PoolState)
    (log : List MetricsRow) (c : String)
    (hid : ¬ badId fns func_id)
    (hc : settingsGet (funcAt fns func_id).settings "code" = some c)
    (hne : c ≠ "") :
    compare_performance cfg env fns func_id st log =
      ⟨Except.ok
          ⟨reportOf (run_function cfg env
              ⟨c, (funcAt fns func_id).language, (funcAt fns func_id).timeout,
                "runc", (funcAt fns func_id).name⟩ st log).outcome,
            reportOf (run_function cfg env
              ⟨c, (funcAt fns func_id).language, (funcAt fns func_id).timeout,
                "runsc", (funcAt fns func_id).name⟩
              (run_function cfg env
                ⟨c, (funcAt fns func_id).language, (funcAt fns func_id).timeout,
                  "runc", (funcAt fns func_id).name⟩ st log).st
              (run_function cfg env
                ⟨c, (funcAt fns func_id).language, (funcAt fns func_id).timeout,
                  "runc", (funcAt fns func_id).name⟩ st log).log).outcome⟩,
        fns,
        (run_function cfg env
          ⟨c, (funcAt fns func_id).language, (funcAt fns func_id).timeout,
            "runsc", (funcAt fns func_id).name⟩
          (run_function cfg env
            ⟨c, (funcAt fns func_id).language, (funcAt fns func_id).timeout,
              "runc", (funcAt fns func_id).name⟩ st log).st
          (run_function cfg env
            ⟨c, (funcAt fns func_id).language, (funcAt fns func_id).timeout,
              "runc", (funcAt fns func_id).name⟩ st log).log).st,
        (run_function cfg env
          ⟨c, (funcAt fns func_id).language, (funcAt fns func_id).timeout,
            "runsc", (funcAt fns func_id).name⟩
          (run_function cfg env
            ⟨c, (funcAt fns func_id).language, (funcAt fns func_id).timeout,
              "runc", (funcAt fns func_id).name⟩ st log).st
          (run_function cfg env
            ⟨c, (funcAt fns func_id).language, (funcAt fns func_id).timeout,
              "runc", (funcAt fns func_id).name⟩ st log).log).log,
        [⟨c, (funcAt fns func_id).language, (funcAt fns func_id).timeout,
            "runc", (funcAt fns func_id).name⟩,
          ⟨c, (funcAt fns func_id).language, (funcAt fns func_id).timeout,
            "runsc", (funcAt fns func_id).name⟩]⟩ := by
  simp only [compare_performance, if_neg hid, hc, if_neg hne]

theorem run_function_endpoint_eq (cfg : PoolConfig) (env : ExecEnv)
    (fns : List StoredFunction) (func_id : Int) (st : PoolState)
    (log : List MetricsRow) (c : String)
    (hid : ¬ badId fns func_id)
    (hc : settingsGet (funcAt fns func_id).settings "code" = some c)
    (hne : c ≠ "") :
    run_function_endpoint cfg env fns func_id st log =
      ⟨Except.ok (run_function cfg env
          ⟨c, (funcAt fns func_id).language, (funcAt fns func_id).timeout,
            (funcAt fns func_id).runtime, (funcAt fns func_id).name⟩ st log).outcome.output,
        fns,
        (run_function cfg env
          ⟨c, (funcAt fns func_id).language, (funcAt fns func_id).timeout,
            (funcAt fns func_id).runtime, (funcAt fns func_id).name⟩ st log).st,
        (run_function cfg env
          ⟨c, (funcAt fns func_id).language, (funcAt fns func_id).timeout,
            (funcAt fns func_id).runtime, (funcAt fns func_id).name⟩ st log).log,
        [⟨c, (funcAt fns func_id).language, (funcAt fns func_id).timeout,
            (funcAt fns func_id).runtime, (funcAt fns func_id).name⟩]⟩ := by
  simp only [run_function_endpoint, if_neg hid, hc, if_neg hne]

/-! ## Claims -/

/-- C5: for every execution request, `execute` / `run_function` returns a
result with exactly the components `(output, stdout, stderr,
metrics{responseTimeMs, memoryUsageMb, cpuUsagePercent, errorFlag}, error)`,
and a metrics row is produced for the execution even on failure. -/
theorem execute_result_components (cfg : PoolConfig) (env : ExecEnv)
    (req : ExecutionRequest) (st : PoolState) (log : List MetricsRow) :
    (∃ (o so se : String) (rt mm cp : Nat) (ef : Bool) (err : Option ExecError),
      (run_function cfg env req st log).outcome =
        ⟨o, so, se, ⟨rt, mm, cp, ef⟩, err⟩) ∧
    (run_function cfg env req st log).log =
      log ++ [rowOf req.name req.backend (outcomeOf env req)] := by
  constructor
  · exact ⟨(outcomeOf env req).output, (outcomeOf env req).stdout,
      (outcomeOf env req).stderr, (outcomeOf env req).metrics.responseTimeMs,
      (outcomeOf env req).metrics.memoryUsageMb,
      (outcomeOf env req).metrics.cpuUsagePercent,
      (outcomeOf env req).metrics.errorFlag, (outcomeOf env req).error, rfl⟩
  · rfl

/-- C10: for every stored function whose settings have no `"code"` key or an
empty code value, both the run endpoint and the compare endpoint answer
HTTP 400 and never invoke the execution engine. -/
theorem missing_code_yields_400 (cfg : PoolConfig) (env : ExecEnv)
    (fns : List StoredFunction) (func_id : Int) (st : PoolState)
    (log : List MetricsRow)
    (hid : ¬ badId fns func_id)
    (hcode : settingsGet (funcAt fns func_id).settings "code" = none ∨
      settingsGet (funcAt fns func_id).settings "code" = some "") :
    (run_function_endpoint cfg env fns func_id st log).resp =
        Except.error ⟨400, "No code provided in function settings"⟩ ∧
    (run_function_endpoint cfg env fns func_id st log).calls = [] ∧
    (compare_performance cfg env fns func_id st log).resp =
        Except.error ⟨400, "No code provided in function settings"⟩ ∧
    (compare_performance cfg env fns func_id st log).calls = [] := by
  rcases hcode with h | h <;>
    simp [run_function_endpoint, compare_performance, if_neg hid, h]

/-- C10 witness: a function whose settings dictionary lacks a `"code"` key. -/
theorem missing_code_yields_400_witness :
    (run_function_endpoint ⟨2⟩ ⟨fun _ => default⟩
        [⟨"f", "/f", "python", 5, "runc", [], 1⟩] 1 initPool []).resp =
      Except.error ⟨400, "No code provided in function settings"⟩ ∧
    (run_function_endpoint ⟨2⟩ ⟨fun _ => default⟩
        [⟨"f", "/f", "python", 5, "runc", [], 1⟩] 1 initPool []).calls = [] ∧
    (compare_performance ⟨2⟩ ⟨fun _ => default⟩
        [⟨"f", "/f", "python", 5, "runc", [], 1⟩] 1 initPool []).resp =
      Except.error ⟨400, "No code provided in function settings"⟩ ∧
    (compare_performance ⟨2⟩ ⟨fun _ => default⟩
        [⟨"f", "/f", "python", 5, "runc", [], 1⟩] 1 initPool []).calls = [] :=
  missing_code_yields_400 ⟨2⟩ ⟨fun _ => default⟩
    [⟨"f", "/f", "python", 5, "runc", [], 1⟩] 1 initPool []
    (by decide) (Or.inl rfl)

/-- C9 counterexample: the claim's "404 if and only if the id is invalid"
fails on the metrics endpoint — with one stored function and an empty
metrics log, `func_id = 1` is valid yet `get_function_metrics` raises
HTTP 404 ("No metrics found"). -/
theorem metrics_404_on_valid_id :
    is404 (get_function_metrics
      [⟨"f", "/f", "python", 5, "runc", [("code", "print(1)")], 1⟩] 1 []) ∧
    ¬ badId [⟨"f", "/f", "python", 5, "runc", [("code", "print(1)")], 1⟩] 1 := by
  constructor
  · exact ⟨"No metrics found for function f", rfl⟩
  · decide

/-- C9 (amended): every per-function endpoint raises HTTP 404 when
`func_id <= 0` or `func_id > len(functions)`; for get, update, delete, run
and compare this is the only source of 404, while the metrics endpoint
additionally raises 404 when the function has no stored metrics row; and
whenever the id guard fires, the registry is unchanged and the execution
engine is not invoked. -/
theorem per_function_endpoints_404 (cfg : PoolConfig) (env : ExecEnv)
    (fns : List StoredFunction) (func_id : Int) (fnew : StoredFunction)
    (st : PoolState) (log : List MetricsRow) :
    (is404 (get_function fns func_id) ↔ badId fns func_id) ∧
    (is404 (update_function fns func_id fnew).1 ↔ badId fns func_id) ∧
    (is404 (delete_function fns func_id).1 ↔ badId fns func_id) ∧
    (is404 (run_function_endpoint cfg env fns func_id st log).resp ↔
      badId fns func_id) ∧
    (is404 (compare_performance cfg env fns func_id st log).resp ↔
      badId fns func_id) ∧
    (is404 (get_function_metrics fns func_id log) ↔
      (badId fns func_id ∨
        (log.filter (fun r => r.function_name == (funcAt fns func_id).name)).getLast?
          = none)) ∧
    (badId fns func_id →
      (update_function fns func_id fnew).2 = fns ∧
      (delete_function fns func_id).2 = fns ∧
      (run_function_endpoint cfg env fns func_id st log).fns = fns ∧
      (run_function_endpoint cfg env fns func_id st log).calls = [] ∧
      (compare_performance cfg env fns func_id st log).fns = fns ∧
      (compare_performance cfg env fns func_id st log).calls = []) := by
  by_cases hid : badId fns func_id
  · refine ⟨?_, ?_, ?_, ?_, ?_, ?_, ?_⟩ <;>
      simp [get_function, update_function, delete_function, run_function_endpoint,
        compare_performance, get_function_metrics, if_pos hid, hid, is404_404]
  · have hrun : ¬ is404 (run_function_endpoint cfg env fns func_id st log).resp := by
      simp only [run_function_endpoint, if_neg hid]
      cases hcs : settingsGet (funcAt fns func_id).settings "code" with
      | none => exact not_is404_400 _
      | some c =>
        by_cases hne : c = ""
        · simp only [if_pos hne]
          exact not_is404_400 _
        · simp only [if_neg hne]
          exact not_is404_ok _
    have hcmp : ¬ is404 (compare_performance cfg env fns func_id st log).resp := by
      simp only [compare_performance, if_neg hid]
      cases hcs : settingsGet (funcAt fns func_id).settings "code" with
      | none => exact not_is404_400 _
      | some c =>
        by_cases hne : c = ""
        · simp only [if_pos hne]
          exact not_is404_400 _
        · simp only [if_neg hne]
          exact not_is404_ok _
    have hmet : is404 (get_function_metrics fns func_id log) ↔
        (log.filter (fun r => r.function_name == (funcAt fns func_id).name)).getLast?
          = none := by
      unfold get_function_metrics
      rw [if_neg hid]
      cases hlast : (log.filter (fun r =>
          r.function_name == (funcAt fns func_id).name)).getLast? with
      | none => simp [is404_404]
      | some row => simp [not_is404_ok]
    refine ⟨?_, ?_, ?_, ?_, ?_, ?_, fun h => absurd h hid⟩
    · simp [get_function, if_neg hid, not_is404_ok, hid]
    · simp [update_function, if_neg hid, not_is404_ok, hid]
    · simp [delete_function, if_neg hid, not_is404_ok, hid]
    · simp [hrun, hid]
    · simp [hcmp, hid]
    · rw [hmet]
      simp [hid]

/-- C9 (amended) witness: concrete evaluation with a one-function registry. -/
theorem per_function_endpoints_404_witness :
    (is404 (get_function [⟨"f", "/f", "python", 5, "runc", [("code", "x")], 1⟩] 2) ↔
      badId [⟨"f", "/f", "python", 5, "runc", [("code", "x")], 1⟩] 2) ∧
    (is404 (update_function [⟨"f", "/f", "python", 5, "runc", [("code", "x")], 1⟩] 2
        ⟨"g", "/g", "node", 3, "runsc", [], 0⟩).1 ↔
      badId [⟨"f", "/f", "python", 5, "runc", [("code", "x")], 1⟩] 2) ∧
    (is404 (delete_function [⟨"f", "/f", "python", 5, "runc", [("code", "x")], 1⟩] 2).1 ↔
      badId [⟨"f", "/f", "python", 5, "runc", [("code", "x")], 1⟩] 2) ∧
    (is404 (run_function_endpoint ⟨2⟩ ⟨fun _ => default⟩
        [⟨"f", "/f", "python", 5, "runc", [("code", "x")], 1⟩] 2 initPool []).resp ↔
      badId [⟨"f", "/f", "python", 5, "runc", [("code", "x")], 1⟩] 2) ∧
    (is404 (compare_performance ⟨2⟩ ⟨fun _ => default⟩
        [⟨"f", "/f", "python", 5, "runc", [("code", "x")], 1⟩] 2 initPool []).resp ↔
      badId [⟨"f", "/f", "python", 5, "runc", [("code", "x")], 1⟩] 2) ∧
    (is404 (get_function_metrics [⟨"f", "/f", "python", 5, "runc", [("code", "x")], 1⟩]
        2 []) ↔
      (badId [⟨"f", "/f", "python", 5, "runc", [("code", "x")], 1⟩] 2 ∨
        (([] : List MetricsRow).filter (fun r => r.function_name ==
          (funcAt [⟨"f", "/f", "python", 5, "runc", [("code", "x")], 1⟩] 2).name)).getLast?
          = none)) ∧
    (badId [⟨"f", "/f", "python", 5, "runc", [("code", "x")], 1⟩] 2 →
      (update_function [⟨"f", "/f", "python", 5, "runc", [("code", "x")], 1⟩] 2
        ⟨"g", "/g", "node", 3, "runsc", [], 0⟩).2 =
        [⟨"f", "/f", "python", 5, "runc", [("code", "x")], 1⟩] ∧
      (delete_function [⟨"f", "/f", "python", 5, "runc", [("code", "x")], 1⟩] 2).2 =
        [⟨"f", "/f", "python", 5, "runc", [("code", "x")], 1⟩] ∧
      (run_function_endpoint ⟨2⟩ ⟨fun _ => default⟩
        [⟨"f", "/f", "python", 5, "runc", [("code", "x")], 1⟩] 2 initPool []).fns =
        [⟨"f", "/f", "python", 5, "runc", [("code", "x")], 1⟩] ∧
      (run_function_endpoint ⟨2⟩ ⟨fun _ => default⟩
        [⟨"f", "/f", "python", 5, "runc", [("code", "x")], 1⟩] 2 initPool []).calls = [] ∧
      (compare_performance ⟨2⟩ ⟨fun _ => default⟩
        [⟨"f", "/f", "python", 5, "runc", [("code", "x")], 1⟩] 2 initPool []).fns =
        [⟨"f", "/f", "python", 5, "runc", [("code", "x")], 1⟩] ∧
      (compare_performance ⟨2⟩ ⟨fun _ => default⟩
        [⟨"f", "/f", "python", 5, "runc", [("code", "x")], 1⟩] 2 initPool []).calls = []) :=
  per_function_endpoints_404 ⟨2⟩ ⟨fun _ => default⟩
    [⟨"f", "/f", "python", 5, "runc", [("code", "x")], 1⟩] 2
    ⟨"g", "/g", "node", 3, "runsc", [], 0⟩ initPool []

/-- C4: `compare_performance` invokes the engine exactly twice — once per
sandbox backend, `"runc"` then `"runsc"` — with identical code, language and
timeout, and both backends' results are returned to the caller. -/
theorem compare_invokes_execute_twice (cfg : PoolConfig) (env : ExecEnv)
    (fns : List StoredFunction) (func_id : Int) (st : PoolState)
    (log : List MetricsRow) (c : String)
    (hid : ¬ badId fns func_id)
    (hc : settingsGet (funcAt fns func_id).settings "code" = some c)
    (hne : c ≠ "") :
    (compare_performance cfg env fns func_id st log).calls =
      [⟨c, (funcAt fns func_id).language, (funcAt fns func_id).timeout, "runc",
          (funcAt fns func_id).name⟩,
        ⟨c, (funcAt fns func_id).language, (funcAt fns func_id).timeout, "runsc",
          (funcAt fns func_id).name⟩] ∧
    (compare_performance cfg env fns func_id st log).resp =
      Except.ok
        ⟨reportOf (outcomeOf env ⟨c, (funcAt fns func_id).language,
            (funcAt fns func_id).timeout, "runc", (funcAt fns func_id).name⟩),
          reportOf (outcomeOf env ⟨c, (funcAt fns func_id).language,
            (funcAt fns func_id).timeout, "runsc", (funcAt fns func_id).name⟩)⟩ := by
  rw [compare_performance_eq cfg env fns func_id st log c hid hc hne]
  exact ⟨rfl, rfl⟩

/-- C4 witness: one stored python function with code, compared concretely. -/
theorem compare_invokes_execute_twice_witness :
    (compare_performance ⟨2⟩ ⟨fun _ => ⟨100, 0, "", "", "2", 10, 5⟩⟩
        [⟨"add", "/add", "python", 5, "runc", [("code", "print(1+1)")], 1⟩]
        1 initPool []).calls =
      [⟨"print(1+1)", "python", 5, "runc", "add"⟩,
        ⟨"print(1+1)", "python", 5, "runsc", "add"⟩] ∧
    (compare_performance ⟨2⟩ ⟨fun _ => ⟨100, 0, "", "", "2", 10, 5⟩⟩
        [⟨"add", "/add", "python", 5, "runc", [("code", "print(1+1)")], 1⟩]
        1 initPool []).resp =
      Except.ok
        ⟨reportOf (outcomeOf ⟨fun _ => ⟨100, 0, "", "", "2", 10, 5⟩⟩
            ⟨"print(1+1)", "python", 5, "runc", "add"⟩),
          reportOf (outcomeOf ⟨fun _ => ⟨100, 0, "", "", "2", 10, 5⟩⟩
            ⟨"print(1+1)", "python", 5, "runsc", "add"⟩)⟩ :=
  compare_invokes_execute_twice ⟨2⟩ ⟨fun _ => ⟨100, 0, "", "", "2", 10, 5⟩⟩
    [⟨"add", "/add", "python", 5, "runc", [("code", "print(1+1)")], 1⟩]
    1 initPool [] "print(1+1)" (by decide) rfl (by decide)

/-- C1: the two backend runs of a compare invocation are independent — when
the `"runc"` run fails (its error flag is set), the `"runsc"` result is still
computed from that backend's own behaviour and reported, a metrics record is
appended to the log for each of the two backends (the failing one with its
error flag set), and each backend is invoked exactly once (no retry, no
suppression, no replacement). -/
theorem compare_failure_reported_alongside (cfg : PoolConfig) (env : ExecEnv)
    (fns : List StoredFunction) (func_id : Int) (st : PoolState)
    (log : List MetricsRow) (c : String)
    (hid : ¬ badId fns func_id)
    (hc : settingsGet (funcAt fns func_id).settings "code" = some c)
    (hne : c ≠ "")
    (hfail : (outcomeOf env ⟨c, (funcAt fns func_id).language,
        (funcAt fns func_id).timeout, "runc",
        (funcAt fns func_id).name⟩).metrics.errorFlag = true) :
    (compare_performance cfg env fns func_id st log).resp =
      Except.ok
        ⟨reportOf (outcomeOf env ⟨c, (funcAt fns func_id).language,
            (funcAt fns func_id).timeout, "runc", (funcAt fns func_id).name⟩),
          reportOf (outcomeOf env ⟨c, (funcAt fns func_id).language,
            (funcAt fns func_id).timeout, "runsc", (funcAt fns func_id).name⟩)⟩ ∧
    (compare_performance cfg env fns func_id st log).log =
      log ++
        [rowOf (funcAt fns func_id).name "runc"
            (outcomeOf env ⟨c, (funcAt fns func_id).language,
              (funcAt fns func_id).timeout, "runc", (funcAt fns func_id).name⟩),
          rowOf (funcAt fns func_id).name "runsc"
            (outcomeOf env ⟨c, (funcAt fns func_id).language,
              (funcAt fns func_id).timeout, "runsc", (funcAt fns func_id).name⟩)] ∧
    (rowOf (funcAt fns func_id).name "runc"
        (outcomeOf env ⟨c, (funcAt fns func_id).language,
          (funcAt fns func_id).timeout, "runc",
          (funcAt fns func_id).name⟩)).error = true ∧
    (compare_performance cfg env fns func_id st log).calls =
      [⟨c, (funcAt fns func_id).language, (funcAt fns func_id).timeout, "runc",
          (funcAt fns func_id).name⟩,
        ⟨c, (funcAt fns func_id).language, (funcAt fns func_id).timeout, "runsc",
          (funcAt fns func_id).name⟩] := by
  rw [compare_performance_eq cfg env fns func_id st log c hid hc hne]
  refine ⟨rfl, ?_, hfail, rfl⟩
  show (log ++ [_]) ++ [_] = _
  rw [List.append_assoc]
  rfl

/-- C1 witness: the runc run exits non-zero while the runsc run succeeds;
both records are still produced. -/
theorem compare_failure_reported_alongside_witness :
    ((outcomeOf ⟨fun r => if r.backend == "runc" then ⟨100, 1, "", "boom", "", 10, 5⟩
          else ⟨100, 0, "", "", "2", 10, 5⟩⟩
        ⟨"print(1+1)", "python", 5, "runc", "add"⟩).metrics.errorFlag = true) ∧
    (compare_performance ⟨2⟩
        ⟨fun r => if r.backend == "runc" then ⟨100, 1, "", "boom", "", 10, 5⟩
          else ⟨100, 0, "", "", "2", 10, 5⟩⟩
        [⟨"add", "/add", "python", 5, "runc", [("code", "print(1+1)")], 1⟩]
        1 initPool []).log =
      [] ++
        [rowOf "add" "runc"
            (outcomeOf ⟨fun r => if r.backend == "runc" then ⟨100, 1, "", "boom", "", 10, 5⟩
                else ⟨100, 0, "", "", "2", 10, 5⟩⟩
              ⟨"print(1+1)", "python", 5, "runc", "add"⟩),
          rowOf "add" "runsc"
            (outcomeOf ⟨fun r => if r.backend == "runc" then ⟨100, 1, "", "boom", "", 10, 5⟩
                else ⟨100, 0, "", "", "2", 10, 5⟩⟩
              ⟨"print(1+1)", "python", 5, "runsc", "add"⟩)] :=
  ⟨rfl,
    ((compare_failure_reported_alongside ⟨2⟩
      ⟨fun r => if r.backend == "runc" then ⟨100, 1, "", "boom", "", 10, 5⟩
        else ⟨100, 0, "", "", "2", 10, 5⟩⟩
      [⟨"add", "/add", "python", 5, "runc", [("code", "print(1+1)")], 1⟩]
      1 initPool [] "print(1+1)" (by decide) rfl (by decide) rfl).2).1⟩

/-- When the registry entry at `func_id` yields the request `req`, the run
endpoint is exactly one engine invocation of `req`. -/
theorem run_function_endpoint_requestOf (cfg : PoolConfig) (env : ExecEnv)
    (fns : List StoredFunction) (func_id : Int) (st : PoolState)
    (log : List MetricsRow) (req : ExecutionRequest)
    (h : requestOf fns func_id = some req) :
    run_function_endpoint cfg env fns func_id st log =
      ⟨Except.ok (run_function cfg env req st log).outcome.output, fns,
        (run_function cfg env req st log).st,
        (run_function cfg env req st log).log, [req]⟩ := by
  unfold requestOf at h
  by_cases hid : badId fns func_id
  · rw [if_pos hid] at h
    exact Option.noConfusion h
  · rw [if_neg hid] at h
    cases hcs : settingsGet (funcAt fns func_id).settings "code" with
    | none =>
      simp only [hcs] at h
      exact Option.noConfusion h
    | some c =>
      simp only [hcs] at h
      by_cases hne : c = ""
      · simp only [if_pos hne] at h
        exact Option.noConfusion h
      · simp only [if_neg hne] at h
        have hreq := (Option.some.inj h).symm
        subst hreq
        exact run_function_endpoint_eq cfg env fns func_id st log c hid hcs hne

/-- C7: the engine's behaviour depends only on the self-contained request —
two run invocations that extract equal requests from two arbitrary
registries produce identical responses, identical engine state, identical
metrics logs and identical engine call traces, regardless of the registries'
contents. -/
theorem execute_independent_of_registry (cfg : PoolConfig) (env : ExecEnv)
    (st : PoolState) (log : List MetricsRow)
    (fns1 fns2 : List StoredFunction) (i1 i2 : Int) (req : ExecutionRequest)
    (h1 : requestOf fns1 i1 = some req) (h2 : requestOf fns2 i2 = some req) :
    (run_function_endpoint cfg env fns1 i1 st log).resp =
      (run_function_endpoint cfg env fns2 i2 st log).resp ∧
    (run_function_endpoint cfg env fns1 i1 st log).st =
      (run_function_endpoint cfg env fns2 i2 st log).st ∧
    (run_function_endpoint cfg env fns1 i1 st log).log =
      (run_function_endpoint cfg env fns2 i2 st log).log ∧
    (run_function_endpoint cfg env fns1 i1 st log).calls =
      (run_function_endpoint cfg env fns2 i2 st log).calls := by
  rw [run_function_endpoint_requestOf cfg env fns1 i1 st log req h1,
    run_function_endpoint_requestOf cfg env fns2 i2 st log req h2]
  exact ⟨rfl, rfl, rfl, rfl⟩

/-- C7 witness: two different registries (different routes, ids and extra
entries) yielding the same request behave identically. -/
theorem execute_independent_of_registry_witness :
    (requestOf [⟨"add", "/add", "python", 5, "runc", [("code", "print(1+1)")], 1⟩] 1 =
      some ⟨"print(1+1)", "python", 5, "runc", "add"⟩) ∧
    (requestOf [⟨"other", "/o", "node", 9, "runsc", [], 1⟩,
        ⟨"add", "/different-route", "python", 5, "runc",
          [("code", "print(1+1)")], 2⟩] 2 =
      some ⟨"print(1+1)", "python", 5, "runc", "add"⟩) ∧
    (run_function_endpoint ⟨2⟩ ⟨fun _ => ⟨100, 0, "", "", "2", 10, 5⟩⟩
        [⟨"add", "/add", "python", 5, "runc", [("code", "print(1+1)")], 1⟩]
        1 initPool []).resp =
      (run_function_endpoint ⟨2⟩ ⟨fun _ => ⟨100, 0, "", "", "2", 10, 5⟩⟩
        [⟨"other", "/o", "node", 9, "runsc", [], 1⟩,
          ⟨"add", "/different-route", "python", 5, "runc",
            [("code", "print(1+1)")], 2⟩]
        2 initPool []).resp :=
  ⟨rfl, rfl,
    (execute_independent_of_registry ⟨2⟩ ⟨fun _ => ⟨100, 0, "", "", "2", 10, 5⟩⟩
      initPool []
      [⟨"add", "/add", "python", 5, "runc", [("code", "print(1+1)")], 1⟩]
      [⟨"other", "/o", "node", 9, "runsc", [], 1⟩,
        ⟨"add", "/different-route", "python", 5, "runc",
          [("code", "print(1+1)")], 2⟩]
      1 2 ⟨"print(1+1)", "python", 5, "runc", "add"⟩ rfl rfl).1⟩

/-- In a well-formed pool, the slot handed out by `checkout` is no longer in
the idle queue it came from. -/
theorem checkout_slot_not_idle (st : PoolState) (lang backend : String)
    (caller : Nat) (hwf : PoolWF st) :
    (checkout st lang backend caller).1 ∉ (checkout st lang backend caller).2.idle := by
  obtain ⟨hnd, hlt⟩ := hwf
  rcases hfi : idleFor st lang backend with _ | ⟨s0, rest⟩
  · simp only [checkout, hfi]
    intro hm
    have hmem : st.nextId ∈ stIds st := by
      unfold stIds
      exact List.mem_append_left _
        (List.mem_map_of_mem (fun s => s.slotId) hm)
    exact lt_irrefl _ (hlt _ hmem)
  · simp only [checkout, hfi]
    have hidnd : st.idle.Nodup :=
      (hnd.of_append_left).of_map (fun s => s.slotId)
    exact hidnd.not_mem_erase

/-- C6: an execution whose code runs longer than its timeout yields a
`TimeoutError` result with the error flag set, and the container it used is
destroyed — never returned to the idle pool for its (language, backend)
key. -/
theorem execute_timeout_destroys_container (cfg : PoolConfig) (env : ExecEnv)
    (req : ExecutionRequest) (st : PoolState) (log : List MetricsRow)
    (hwf : PoolWF st)
    (hlong : req.timeout * 1000 < (env.behaviour req).durationMs) :
    (run_function cfg env req st log).outcome.error = some ExecError.timeout ∧
    (run_function cfg env req st log).outcome.metrics.errorFlag = true ∧
    (run_function cfg env req st log).slot ∉ (run_function cfg env req st log).st.idle ∧
    (run_function cfg env req st log).slot ∉
      idleFor (run_function cfg env req st log).st req.language req.backend := by
  have ho : outcomeOf env req = ⟨"", (env.behaviour req).stdout,
      (env.behaviour req).stderr,
      ⟨req.timeout * 1000, (env.behaviour req).memoryMb,
        (env.behaviour req).cpuPercent, true⟩,
      some ExecError.timeout⟩ := by
    unfold outcomeOf
    rw [if_pos hlong]
  have herr : (run_function cfg env req st log).outcome.error =
      some ExecError.timeout := by
    rw [run_function_outcome, ho]
  have hflag : (run_function cfg env req st log).outcome.metrics.errorFlag = true := by
    rw [run_function_outcome, ho]
  have hhealthy : ((outcomeOf env req).error != some ExecError.timeout) = false := by
    rw [ho]
    rfl
  have hstidle : (run_function cfg env req st log).st.idle =
      (checkout st req.language req.backend 0).2.idle := by
    show (checkin cfg (checkout st req.language req.backend 0).2
        (checkout st req.language req.backend 0).1 0
        ((outcomeOf env req).error != some ExecError.timeout)).idle = _
    rw [hhealthy]
    unfold checkin
    rw [if_neg (by simp)]
  have hnotidle : (run_function cfg env req st log).slot ∉
      (run_function cfg env req st log).st.idle := by
    rw [hstidle]
    show (checkout st req.language req.backend 0).1 ∉
      (checkout st req.language req.backend 0).2.idle
    exact checkout_slot_not_idle st req.language req.backend 0 hwf
  exact ⟨herr, hflag, hnotidle, fun hm => hnotidle (List.mem_of_mem_filter hm)⟩

/-- C6 witness: code that would run 3000 ms against a 2 s timeout, on the
empty (well-formed) pool. -/
theorem execute_timeout_destroys_container_witness :
    PoolWF initPool ∧
    ((⟨"while True: pass", "python", 2, "runc", "loop"⟩ : ExecutionRequest).timeout
        * 1000 <
      ((⟨fun _ => ⟨3000, 0, "", "", "", 10, 5⟩⟩ : ExecEnv).behaviour
        ⟨"while True: pass", "python", 2, "runc", "loop"⟩).durationMs) ∧
    ((run_function ⟨2⟩ ⟨fun _ => ⟨3000, 0, "", "", "", 10, 5⟩⟩
        ⟨"while True: pass", "python", 2, "runc", "loop"⟩ initPool
        []).outcome.error = some ExecError.timeout ∧
      (run_function ⟨2⟩ ⟨fun _ => ⟨3000, 0, "", "", "", 10, 5⟩⟩
        ⟨"while True: pass", "python", 2, "runc", "loop"⟩ initPool
        []).outcome.metrics.errorFlag = true ∧
      (run_function ⟨2⟩ ⟨fun _ => ⟨3000, 0, "", "", "", 10, 5⟩⟩
        ⟨"while True: pass", "python", 2, "runc", "loop"⟩ initPool []).slot ∉
        (run_function ⟨2⟩ ⟨fun _ => ⟨3000, 0, "", "", "", 10, 5⟩⟩
          ⟨"while True: pass", "python", 2, "runc", "loop"⟩ initPool []).st.idle ∧
      (run_function ⟨2⟩ ⟨fun _ => ⟨3000, 0, "", "", "", 10, 5⟩⟩
        ⟨"while True: pass", "python", 2, "runc", "loop"⟩ initPool []).slot ∉
        idleFor (run_function ⟨2⟩ ⟨fun _ => ⟨3000, 0, "", "", "", 10, 5⟩⟩
          ⟨"while True: pass", "python", 2, "runc", "loop"⟩ initPool []).st
          "python" "runc") :=
  ⟨poolWF_init, by decide,
    execute_timeout_destroys_container ⟨2⟩ ⟨fun _ => ⟨3000, 0, "", "", "", 10, 5⟩⟩
      ⟨"while True: pass", "python", 2, "runc", "loop"⟩ initPool []
      poolWF_init (by decide)⟩

/-- C8: in every pool state reachable by interleaved prewarm / checkout /
checkin transitions from the empty pool, every per-key idle-queue length is
non-negative, the busy set holds each container at most once, and no
container slot is concurrently checked out to two callers. -/
theorem pool_no_double_ownership (cfg : PoolConfig) (st : PoolState)
    (h : Reachable cfg st) :
    (∀ lang backend, 0 ≤ (idleFor st lang backend).length) ∧
    (st.busy.map (fun p => p.1.slotId)).Nodup ∧
    (∀ s c1 c2, (s, c1) ∈ st.busy → (s, c2) ∈ st.busy → c1 = c2) := by
  have hwf := poolWF_reachable cfg st h
  have hbusy : (st.busy.map (fun p => p.1.slotId)).Nodup := hwf.1.of_append_right
  refine ⟨fun _ _ => Nat.zero_le _, hbusy, fun s c1 c2 h1 h2 => ?_⟩
  have heq : ((s, c1) : ContainerSlot × Nat) = (s, c2) :=
    List.inj_on_of_nodup_map hbusy h1 h2 rfl
  exact congrArg Prod.snd heq

/-- C8 witness: the empty pool is reachable and satisfies the invariant. -/
theorem pool_no_double_ownership_witness :
    (∀ lang backend, 0 ≤ (idleFor initPool lang backend).length) ∧
    (initPool.busy.map (fun p => p.1.slotId)).Nodup ∧
    (∀ s c1 c2, (s, c1) ∈ initPool.busy → (s, c2) ∈ initPool.busy → c1 = c2) :=
  pool_no_double_ownership ⟨2⟩ initPool Relation.ReflTransGen.refl

/-- C2 counterexample: with the Docker daemon and database fine and exactly
one pair — (python, runc) — failing its image build, `startup_event` aborts
the whole startup with a `RuntimeError`, so the other three (language,
backend) pairs are not prewarmed or served either; the failure is not
contained to the affected pair. -/
theorem startup_one_build_failure_aborts_all :
    startup_event ⟨true, true, fun l b => l == "python" && b == "runc",
        fun _ _ => 0⟩ 2 =
      Except.error "Docker image build failed: build failed for python/runc" ∧
    startupPairs.filter (fun p => p.1 == "python" && p.2 == "runc") =
      [("python", "runc")] :=
  ⟨rfl, rfl⟩

/-- C2 (amended): a runtime-image build failure for any (language, backend)
pair aborts the entire startup — `startup_event` raises
`RuntimeError("Docker image build failed: ...")`, so no pair (failing or
not) is prewarmed or served until the build is resolved. -/
theorem startup_build_failure_aborts_startup (env : StartupEnv) (target : Nat)
    (hdocker : env.dockerOk = true) (hdb : env.dbOk = true)
    (hfail : ∃ p ∈ startupPairs, env.buildFails p.1 p.2 = true) :
    ∃ msg, startup_event env target =
      Except.error ("Docker image build failed: " ++ msg) := by
  cases hf : startupPairs.filter (fun p => env.buildFails p.1 p.2) with
  | nil =>
    exfalso
    obtain ⟨p, hp, hbf⟩ := hfail
    have hm : p ∈ startupPairs.filter (fun p => env.buildFails p.1 p.2) :=
      List.mem_filter_of_mem hp hbf
    rw [hf] at hm
    exact List.not_mem_nil p hm
  | cons q rest =>
    obtain ⟨l, b⟩ := q
    refine ⟨"build failed for " ++ l ++ "/" ++ b, ?_⟩
    simp [startup_event, hdocker, hdb, ensure_docker_images, hf]

/-- C2 (amended) witness: only (node, runsc) fails to build, yet startup
aborts entirely. -/
theorem startup_build_failure_aborts_startup_witness :
    (∃ p ∈ startupPairs,
      (⟨true, true, fun l b => l == "node" && b == "runsc", fun _ _ => 1⟩ :
        StartupEnv).buildFails p.1 p.2 = true) ∧
    (∃ msg, startup_event
        ⟨true, true, fun l b => l == "node" && b == "runsc", fun _ _ => 1⟩ 2 =
      Except.error ("Docker image build failed: " ++ msg)) :=
  ⟨⟨("node", "runsc"), by decide, rfl⟩,
    startup_build_failure_aborts_startup
      ⟨true, true, fun l b => l == "node" && b == "runsc", fun _ _ => 1⟩ 2
      rfl rfl ⟨("node", "runsc"), by decide, rfl⟩⟩

/-- C3: pre-warming is best-effort — with Docker and the database fine and
every image build succeeding, `startup_event` completes successfully no
matter how many containers fail while pre-warming any (language, backend)
pair: a partial prewarm failure never propagates an error and never aborts
startup (`prewarm_containers` records failures as log lines instead of
raising). -/
theorem prewarm_partial_failure_not_fatal (env : StartupEnv) (target : Nat)
    (hdocker : env.dockerOk = true) (hdb : env.dbOk = true)
    (hbuild : ∀ p ∈ startupPairs, env.buildFails p.1 p.2 = false) :
    startup_event env target = Except.ok () := by
  have hf : startupPairs.filter (fun p => env.buildFails p.1 p.2) = [] := by
    rw [List.filter_eq_nil_iff]
    intro p hp
    rw [hbuild p hp]
    simp
  simp [startup_event, hdocker, hdb, ensure_docker_images, hf]

/-- C3 witness: five containers fail to prewarm for every pair, and startup
still succeeds. -/
theorem prewarm_partial_failure_not_fatal_witness :
    ((⟨true, true, fun _ _ => false, fun _ _ => 5⟩ : StartupEnv).prewarmFailCount
        "python" "runc" = 5) ∧
    startup_event ⟨true, true, fun _ _ => false, fun _ _ => 5⟩ 2 = Except.ok () :=
  ⟨rfl, prewarm_partial_failure_not_fatal
    ⟨true, true, fun _ _ => false, fun _ _ => 5⟩ 2 rfl rfl (by decide)⟩

end Faas
